import Mathlib

/-!
Verification of the cursor-and-position model of the scribe buffer
(src/src/buffer/position.rs and src/src/buffer/cursor.rs).

The external text store (a `GapBuffer` behind `Rc<RefCell<_>>`) is not part
of the verified sources; following the interface contract it is modelled as
the list of content lines, and its two queries (`in_bounds`,
line-length lookup via `to_string().lines()`) are defined from that
contract.  The cursor operations themselves are translated line by line
from `cursor.rs`, with the store passed explicitly and the mutated cursor
returned.
-/

namespace Scribe

/-- The `Position` struct of position.rs: a `(line, offset)` coordinate,
both `usize` in the source, modelled as `Nat`. -/
structure Position where
  line : Nat
  offset : Nat
deriving DecidableEq

/-- The `partial_cmp` implementation of position.rs (lines 9-27): compares
`line` first, then `offset`, always returning `some` ordering. -/
def Position.cmp (a b : Position) : Option Ordering :=
  some (
    if a.line < b.line then Ordering.lt
    else if a.line > b.line then Ordering.gt
    else if a.offset < b.offset then Ordering.lt
    else if a.offset > b.offset then Ordering.gt
    else Ordering.eq)

/-- The derived `PartialEq` of `Position`: field-wise equality. -/
def Position.eqb (a b : Position) : Bool :=
  a.line == b.line && a.offset == b.offset

/-- Rust `PartialOrd::lt` provided method: `matches!(partial_cmp, Some(Less))`. -/
def Position.ltb (a b : Position) : Bool :=
  match a.cmp b with
  | some Ordering.lt => true
  | _ => false

/-- Rust `PartialOrd::le` provided method: `matches!(partial_cmp, Some(Less | Equal))`. -/
def Position.leb (a b : Position) : Bool :=
  match a.cmp b with
  | some Ordering.lt => true
  | some Ordering.eq => true
  | _ => false

/-- Rust `PartialOrd::gt` provided method: `matches!(partial_cmp, Some(Greater))`. -/
def Position.gtb (a b : Position) : Bool :=
  match a.cmp b with
  | some Ordering.gt => true
  | _ => false

/-- Rust `PartialOrd::ge` provided method: `matches!(partial_cmp, Some(Greater | Equal))`. -/
def Position.geb (a b : Position) : Bool :=
  match a.cmp b with
  | some Ordering.gt => true
  | some Ordering.eq => true
  | _ => false

/-- Modelled from the spec: the external text store (the `GapBuffer` of
cursor.rs, not among the verified sources) is represented by its current
content split into lines, per the interface contract of the spec. -/
abbrev Store := List String

/-- Modelled from the spec: `in_bounds(position)` is true iff `position`
addresses a real character slot or a valid end-of-line slot of the current
content, i.e. the line exists and the offset is at most its length. -/
def in_bounds (s : Store) (p : Position) : Bool :=
  match s.get? p.line with
  | some l => decide (p.offset ≤ l.length)
  | none => false

/-- The `Cursor` struct of cursor.rs, without the shared store handle
(the store is passed to each operation explicitly). -/
structure Cursor where
  position : Position
  sticky_offset : Nat
deriving DecidableEq

/-- The free function `new` of cursor.rs (lines 24-33): a cursor at
`(line, offset)` whose sticky offset starts as `offset`. -/
def Cursor.new (line offset : Nat) : Cursor :=
  { position := { line := line, offset := offset }, sticky_offset := offset }

/-- The method `Cursor::move_to` (cursor.rs lines 56-67): commits an
in-bounds target (position and sticky offset) and returns true, otherwise
leaves the cursor unchanged and returns false. -/
def move_to (s : Store) (c : Cursor) (p : Position) : Cursor × Bool :=
  if in_bounds s p then
    ({ position := p, sticky_offset := p.offset }, true)
  else
    (c, false)

/-- The for-loop of `move_up`/`move_down` (cursor.rs lines 80-85 and
103-108): scans the enumerated lines of the content, recording the length
of the line numbered `target_line`; the accumulator stays 0 when no line
matches. -/
def fallback_offset (s : Store) (target_line : Nat) : Nat :=
  s.enum.foldl (fun acc p => if p.1 = target_line then p.2.length else acc) 0

/-- The method `Cursor::move_up` (cursor.rs lines 71-93): no-op at line 0;
otherwise tries the sticky offset one line up, falling back to that line's
end and then restoring the sticky offset to the originally desired one. -/
def move_up (s : Store) (c : Cursor) : Cursor :=
  if c.position.line = 0 then c
  else
    let target_line := c.position.line - 1
    let new_position : Position := { line := target_line, offset := c.sticky_offset }
    let r := move_to s c new_position
    if r.2 = false then
      let target_offset := fallback_offset s target_line
      let r2 := move_to s r.1 { line := target_line, offset := target_offset }
      { r2.1 with sticky_offset := new_position.offset }
    else r.1

/-- The method `Cursor::move_down` (cursor.rs lines 97-116): like
`move_up` toward line + 1, with no guard at the top. -/
def move_down (s : Store) (c : Cursor) : Cursor :=
  let target_line := c.position.line + 1
  let new_position : Position := { line := target_line, offset := c.sticky_offset }
  let r := move_to s c new_position
  if r.2 = false then
    let target_offset := fallback_offset s target_line
    let r2 := move_to s r.1 { line := target_line, offset := target_offset }
    { r2.1 with sticky_offset := new_position.offset }
  else r.1

/-- The method `Cursor::move_left` (cursor.rs lines 120-126): no-op at
offset 0, otherwise tries one offset to the left. -/
def move_left (s : Store) (c : Cursor) : Cursor :=
  if c.position.offset = 0 then c
  else (move_to s c { line := c.position.line, offset := c.position.offset - 1 }).1

/-- The method `Cursor::move_right` (cursor.rs lines 130-133): tries one
offset to the right unconditionally. -/
def move_right (s : Store) (c : Cursor) : Cursor :=
  (move_to s c { line := c.position.line, offset := c.position.offset + 1 }).1

/-- The method `Cursor::move_to_start_of_line` (cursor.rs lines 136-139). -/
def move_to_start_of_line (s : Store) (c : Cursor) : Cursor :=
  (move_to s c { line := c.position.line, offset := 0 }).1

/-- The method `Cursor::move_to_end_of_line` (cursor.rs lines 142-152):
looks the current line up by number and, when it exists, tries its length
as the new offset; otherwise does nothing. -/
def move_to_end_of_line (s : Store) (c : Cursor) : Cursor :=
  match s.get? c.position.line with
  | some line => (move_to s c { line := c.position.line, offset := line.length }).1
  | none => c

/-- Unfolding of the comparison as a strict line-major order. -/
lemma cmp_eq_lt_iff (a b : Position) :
    a.cmp b = some Ordering.lt ↔
      (a.line < b.line ∨ (a.line = b.line ∧ a.offset < b.offset)) := by
  unfold Position.cmp
  split_ifs with h1 h2 h3 h4 <;> simp <;> omega

/-- Unfolding of the comparison as equality of the two fields. -/
lemma cmp_eq_eq_iff (a b : Position) :
    a.cmp b = some Ordering.eq ↔ (a.line = b.line ∧ a.offset = b.offset) := by
  unfold Position.cmp
  split_ifs with h1 h2 h3 h4 <;> simp <;> omega

/-- Unfolding of the comparison as a strict reverse line-major order. -/
lemma cmp_eq_gt_iff (a b : Position) :
    a.cmp b = some Ordering.gt ↔
      (b.line < a.line ∨ (b.line = a.line ∧ b.offset < a.offset)) := by
  unfold Position.cmp
  split_ifs with h1 h2 h3 h4 <;> simp <;> omega

/-- The strict order `<` in terms of the fields. -/
lemma ltb_iff (a b : Position) :
    a.ltb b = true ↔ (a.line < b.line ∨ (a.line = b.line ∧ a.offset < b.offset)) := by
  rw [← cmp_eq_lt_iff]
  unfold Position.ltb
  rcases h : a.cmp b with _ | o
  · simp [h]
  · cases o <;> simp

/-- The order `<=` in terms of the fields. -/
lemma leb_iff (a b : Position) :
    a.leb b = true ↔
      (a.line < b.line ∨ (a.line = b.line ∧ a.offset ≤ b.offset)) := by
  unfold Position.leb
  rcases h : a.cmp b with _ | o
  · simp only [Bool.false_eq_true, false_iff]
    intro hc
    cases h
  · have hlt := cmp_eq_lt_iff a b
    have heq := cmp_eq_eq_iff a b
    have hgt := cmp_eq_gt_iff a b
    rw [h] at hlt heq hgt
    cases o <;> simp_all <;> omega

/-- The order `==` in terms of the fields. -/
lemma eqb_iff (a b : Position) :
    a.eqb b = true ↔ (a.line = b.line ∧ a.offset = b.offset) := by
  unfold Position.eqb
  simp

/-- The strict order `>` in terms of the fields. -/
lemma gtb_iff (a b : Position) :
    a.gtb b = true ↔ (b.line < a.line ∨ (b.line = a.line ∧ b.offset < a.offset)) := by
  rw [← cmp_eq_gt_iff]
  unfold Position.gtb
  rcases h : a.cmp b with _ | o
  · simp [h]
  · cases o <;> simp

/-- The order `>=` in terms of the fields. -/
lemma geb_iff (a b : Position) :
    a.geb b = true ↔
      (b.line < a.line ∨ (b.line = a.line ∧ b.offset ≤ a.offset)) := by
  unfold Position.geb
  rcases h : a.cmp b with _ | o
  · simp only [Bool.false_eq_true, false_iff]
    intro hc
    cases h
  · have hlt := cmp_eq_lt_iff a b
    have heq := cmp_eq_eq_iff a b
    have hgt := cmp_eq_gt_iff a b
    rw [h] at hlt heq hgt
    cases o <;> simp_all <;> omega

/-- C1: `move_to` commits an in-bounds target (both position fields and
the sticky offset) and returns true; it leaves the cursor completely
unchanged and returns false when the bounds check rejects the target. -/
theorem move_to_contract (s : Store) (c : Cursor) (p : Position) :
    (in_bounds s p = true →
      move_to s c p = ({ position := p, sticky_offset := p.offset }, true)) ∧
    (in_bounds s p = false → move_to s c p = (c, false)) := by
  constructor <;> intro h <;> simp [move_to, h]

/-- Witness for C1 at a concrete store, cursor and targets. -/
theorem move_to_contract_witness :
    move_to ["ab"] (Cursor.new 0 0) { line := 0, offset := 1 } =
      ({ position := { line := 0, offset := 1 }, sticky_offset := 1 }, true) ∧
    move_to ["ab"] (Cursor.new 0 0) { line := 1, offset := 0 } =
      (Cursor.new 0 0, false) :=
  ⟨(move_to_contract ["ab"] (Cursor.new 0 0) { line := 0, offset := 1 }).1 (by decide),
   (move_to_contract ["ab"] (Cursor.new 0 0) { line := 1, offset := 0 }).2 (by decide)⟩

/-- The three-line content of the sticky-offset test. -/
def sticky_store : Store :=
  ["First line that is longer.", "This is a test.", "Another line that is longer."]

/-- C2: on the three-line store, a cursor built at (2, 20) reaches (1, 15)
after one `move_up` (clamped to line 1's length) and (0, 20) after a
second one (the original horizontal intent is recovered). -/
theorem move_up_sticky_example :
    (move_up sticky_store (Cursor.new 2 20)).position = { line := 1, offset := 15 } ∧
    (move_up sticky_store (move_up sticky_store (Cursor.new 2 20))).position =
      { line := 0, offset := 20 } := by
  constructor <;> decide

/-- C3: `<` on positions is the line-major, offset-minor strict order, and
`==` is field-wise equality; in particular (2, 20) < (3, 10). -/
theorem position_order_characterisation (a b : Position) :
    (a.ltb b = true ↔ (a.line < b.line ∨ (a.line = b.line ∧ a.offset < b.offset))) ∧
    (a.eqb b = true ↔ (a.line = b.line ∧ a.offset = b.offset)) ∧
    Position.ltb { line := 2, offset := 20 } { line := 3, offset := 10 } = true :=
  ⟨ltb_iff a b, eqb_iff a b, by decide⟩

/-- C4: the comparison on positions is a total order: `partial_cmp` always
answers, `<=` is antisymmetric and transitive, `==` is reflexive, and
`<`, `<=`, `>`, `>=`, `==` are mutually consistent. -/
theorem position_total_order (a b c : Position) :
    (a.cmp b).isSome = true ∧
    (a.leb b = true → b.leb a = true → a.eqb b = true) ∧
    (a.leb b = true → b.leb c = true → a.leb c = true) ∧
    a.eqb a = true ∧
    (a.ltb b = true ↔ (a.leb b = true ∧ a.eqb b = false)) ∧
    (a.gtb b = true ↔ b.ltb a = true) ∧
    (a.geb b = true ↔ b.leb a = true) := by
  have hlt := ltb_iff a b
  have hle := leb_iff a b
  have hleba := leb_iff b a
  have hlebc := leb_iff b c
  have hleac := leb_iff a c
  have heq := eqb_iff a b
  have heqa := eqb_iff a a
  have hgt := gtb_iff a b
  have hge := geb_iff a b
  have hltba := ltb_iff b a
  refine ⟨by unfold Position.cmp; simp, ?_, ?_, ?_, ?_, ?_, ?_⟩
  · intro h1 h2
    rw [hle] at h1
    rw [hleba] at h2
    rw [heq]
    omega
  · intro h1 h2
    rw [hle] at h1
    rw [hlebc] at h2
    rw [hleac]
    omega
  · rw [heqa]
    omega
  · have heqf : a.eqb b = false ↔ ¬(a.line = b.line ∧ a.offset = b.offset) := by
      rw [← heq]
      cases a.eqb b <;> simp
    rw [hlt, hle, heqf]
    omega
  · rw [hgt, hltba]
  · rw [hge, hleba]

/-- Witness for C4: antisymmetry and transitivity applied at concrete
positions. -/
theorem position_total_order_witness :
    Position.eqb { line := 1, offset := 2 } { line := 1, offset := 2 } = true ∧
    Position.leb { line := 0, offset := 9 } { line := 2, offset := 0 } = true :=
  ⟨(position_total_order { line := 1, offset := 2 } { line := 1, offset := 2 }
      { line := 1, offset := 2 }).2.1 (by decide) (by decide),
   (position_total_order { line := 0, offset := 9 } { line := 1, offset := 4 }
      { line := 2, offset := 0 }).2.2.1 (by decide) (by decide)⟩

/-- Every position on a line missing from the store is out of bounds. -/
lemma in_bounds_of_missing_line (s : Store) (n o : Nat) (h : s.get? n = none) :
    in_bounds s { line := n, offset := o } = false := by
  unfold in_bounds
  rw [h]

/-- C5: when a vertical move's first attempt at the sticky offset fails and
the end-of-line fallback succeeds, the call leaves `sticky_offset` at the
originally desired offset, not the clamped line length. -/
theorem vertical_fallback_restores_sticky (s : Store) (c : Cursor) :
    (c.position.line ≠ 0 →
      in_bounds s { line := c.position.line - 1, offset := c.sticky_offset } = false →
      in_bounds s { line := c.position.line - 1,
                    offset := fallback_offset s (c.position.line - 1) } = true →
      (move_up s c).sticky_offset = c.sticky_offset) ∧
    (in_bounds s { line := c.position.line + 1, offset := c.sticky_offset } = false →
      in_bounds s { line := c.position.line + 1,
                    offset := fallback_offset s (c.position.line + 1) } = true →
      (move_down s c).sticky_offset = c.sticky_offset) := by
  constructor
  · intro h0 h1 _
    simp [move_up, move_to, h0, h1]
  · intro h1 _
    simp [move_down, move_to, h1]

/-- Witness for C5: a failing first attempt with a successful end-of-line
fallback, upward and downward, keeps the sticky offset at 3. -/
theorem vertical_fallback_restores_sticky_witness :
    (move_up ["a", "abc"] (Cursor.new 1 3)).sticky_offset = 3 ∧
    (move_down ["abc", "a"] (Cursor.new 0 3)).sticky_offset = 3 :=
  ⟨(vertical_fallback_restores_sticky ["a", "abc"] (Cursor.new 1 3)).1
      (by decide) (by decide) (by decide),
   (vertical_fallback_restores_sticky ["abc", "a"] (Cursor.new 0 3)).2
      (by decide) (by decide)⟩

/-- C6: `move_up` at line 0 and `move_left` at offset 0 leave the cursor
state literally unchanged. -/
theorem edge_moves_are_noops (s : Store) (c : Cursor) :
    (c.position.line = 0 → move_up s c = c) ∧
    (c.position.offset = 0 → move_left s c = c) := by
  constructor <;> intro h <;> simp [move_up, move_left, h]

/-- Witness for C6 on a one-line store with the cursor at the origin. -/
theorem edge_moves_are_noops_witness :
    move_up ["This is a test."] (Cursor.new 0 0) = Cursor.new 0 0 ∧
    move_left ["This is a test."] (Cursor.new 0 0) = Cursor.new 0 0 :=
  ⟨(edge_moves_are_noops ["This is a test."] (Cursor.new 0 0)).1 rfl,
   (edge_moves_are_noops ["This is a test."] (Cursor.new 0 0)).2 rfl⟩

/-- The fallback loop yields 0 when the target line is absent. -/
lemma fallback_offset_of_missing_line (s : Store) (n : Nat) (h : s.get? n = none) :
    fallback_offset s n = 0 := by
  have hlen : s.length ≤ n := by
    by_contra hc
    push_neg at hc
    rw [List.get?_eq_get hc] at h
    cases h
  unfold fallback_offset
  have : ∀ (l : List (Nat × String)), (∀ q ∈ l, q.1 ≠ n) →
      l.foldl (fun acc p => if p.1 = n then p.2.length else acc) 0 = 0 := by
    intro l
    induction l with
    | nil => intro _; rfl
    | cons q t ih =>
      intro hq
      have h1 : q.1 ≠ n := hq q (List.mem_cons_self q t)
      simp only [List.foldl_cons, if_neg h1]
      exact ih fun r hr => hq r (List.mem_cons_of_mem q hr)
  refine this s.enum ?_
  intro q hq hqn
  have := List.fst_lt_of_mem_enum hq
  omega

/-- C7: when a vertical move's direct attempt fails and the target line is
absent from the line enumeration, the position is unchanged by the call. -/
theorem vertical_move_missing_line_keeps_position (s : Store) (c : Cursor) :
    (c.position.line ≠ 0 →
      in_bounds s { line := c.position.line - 1, offset := c.sticky_offset } = false →
      s.get? (c.position.line - 1) = none →
      (move_up s c).position = c.position) ∧
    (in_bounds s { line := c.position.line + 1, offset := c.sticky_offset } = false →
      s.get? (c.position.line + 1) = none →
      (move_down s c).position = c.position) := by
  constructor
  · intro h0 h1 h2
    have h3 := in_bounds_of_missing_line s (c.position.line - 1)
      (fallback_offset s (c.position.line - 1)) h2
    simp [move_up, move_to, h0, h1, h3]
  · intro h1 h2
    have h3 := in_bounds_of_missing_line s (c.position.line + 1)
      (fallback_offset s (c.position.line + 1)) h2
    simp [move_down, move_to, h1, h3]

/-- Witness for C7: moving up from line 1 over an empty store and moving
down past the last line both leave the position alone. -/
theorem vertical_move_missing_line_keeps_position_witness :
    (move_up [] (Cursor.new 1 0)).position = { line := 1, offset := 0 } ∧
    (move_down ["a"] (Cursor.new 0 5)).position = { line := 0, offset := 5 } :=
  ⟨(vertical_move_missing_line_keeps_position [] (Cursor.new 1 0)).1
      (by decide) (by decide) rfl,
   (vertical_move_missing_line_keeps_position ["a"] (Cursor.new 0 5)).2
      (by decide) rfl⟩

/-- C8: `move_to_end_of_line` tries the current line's exact character
count as the new offset when the line exists and is a no-op when it does
not; on the two-line test content, from (0, 5) it reaches (0, 15). -/
theorem move_to_end_of_line_contract (s : Store) (c : Cursor) :
    (∀ l, s.get? c.position.line = some l →
      move_to_end_of_line s c =
        (move_to s c { line := c.position.line, offset := l.length }).1) ∧
    (s.get? c.position.line = none → move_to_end_of_line s c = c) ∧
    (move_to_end_of_line ["This is a test.", "Another line."]
        (Cursor.new 0 5)).position = { line := 0, offset := 15 } := by
  refine ⟨?_, ?_, by decide⟩
  · intro l h
    unfold move_to_end_of_line
    rw [h]
  · intro h
    unfold move_to_end_of_line
    rw [h]

/-- Witness for C8: both branches applied on a concrete store. -/
theorem move_to_end_of_line_contract_witness :
    move_to_end_of_line ["ab"] (Cursor.new 0 0) =
      (move_to ["ab"] (Cursor.new 0 0) { line := 0, offset := 2 }).1 ∧
    move_to_end_of_line ["ab"] (Cursor.new 3 0) = Cursor.new 3 0 :=
  ⟨(move_to_end_of_line_contract ["ab"] (Cursor.new 0 0)).1 "ab" rfl,
   (move_to_end_of_line_contract ["ab"] (Cursor.new 3 0)).2.1 rfl⟩

/-- C9: with an unchanged store, `move_to` at an in-bounds target is
idempotent (two calls end like one, both returning true); at an
out-of-bounds target it fails identically each time, and `move_right`
blocked at the end of content keeps failing without moving. -/
theorem move_to_idempotent (s : Store) (c : Cursor) (p : Position) :
    (in_bounds s p = true →
      move_to s (move_to s c p).1 p = move_to s c p ∧ (move_to s c p).2 = true) ∧
    (in_bounds s p = false →
      move_to s c p = (c, false) ∧ move_to s (move_to s c p).1 p = (c, false)) ∧
    (in_bounds s { line := c.position.line, offset := c.position.offset + 1 } = false →
      move_right s c = c ∧ move_right s (move_right s c) = c) := by
  refine ⟨?_, ?_, ?_⟩
  · intro h
    simp [move_to, h]
  · intro h
    simp [move_to, h]
  · intro h
    have h1 : move_right s c = c := by
      simp [move_right, move_to, h]
    exact ⟨h1, by rw [h1, h1]⟩

/-- Witness for C9: repetition on the one-line store "ab" at the in-bounds
target (0, 2), the out-of-bounds target (0, 3), and `move_right` at the
end of the content. -/
theorem move_to_idempotent_witness :
    (move_to ["ab"] (move_to ["ab"] (Cursor.new 0 0) { line := 0, offset := 2 }).1
        { line := 0, offset := 2 } =
      move_to ["ab"] (Cursor.new 0 0) { line := 0, offset := 2 }) ∧
    (move_to ["ab"] (Cursor.new 0 0) { line := 0, offset := 3 } =
      (Cursor.new 0 0, false)) ∧
    move_right ["ab"] (move_right ["ab"] (Cursor.new 0 2)) = Cursor.new 0 2 :=
  ⟨((move_to_idempotent ["ab"] (Cursor.new 0 0) { line := 0, offset := 2 }).1
      (by decide)).1,
   ((move_to_idempotent ["ab"] (Cursor.new 0 0) { line := 0, offset := 3 }).2.1
      (by decide)).1,
   ((move_to_idempotent ["ab"] (Cursor.new 0 2)
      { line := 0, offset := 3 }).2.2 (by decide)).2⟩

/-- C10: `move_up` and `move_down` never change the sticky offset, on any
store and any cursor state. -/
theorem vertical_moves_preserve_sticky (s : Store) (c : Cursor) :
    (move_up s c).sticky_offset = c.sticky_offset ∧
    (move_down s c).sticky_offset = c.sticky_offset := by
  constructor
  · by_cases h0 : c.position.line = 0
    · simp [move_up, h0]
    · by_cases h1 :
        in_bounds s { line := c.position.line - 1, offset := c.sticky_offset } = true
      · simp [move_up, move_to, h0, h1]
      · simp only [Bool.not_eq_true] at h1
        simp [move_up, move_to, h0, h1]
  · by_cases h1 :
      in_bounds s { line := c.position.line + 1, offset := c.sticky_offset } = true
    · simp [move_down, move_to, h1]
    · simp only [Bool.not_eq_true] at h1
      simp [move_down, move_to, h1]

end Scribe
